import Mathlib

/-!
Verification of the time-entry lifecycle and midnight-crossover logic of the
daily-report system.

The development shallowly embeds the relevant source code:

* `components/task-timer.tsx` — the timer controller: the `TIMEZONES` table,
  `getDateInTimezone`, the one-second tick effect, the open-entry restore
  effect, `handleMidnightCrossover`, `handleSaveEntry` and the spreadsheet
  notification.
* `lib/linear/projects.ts` — the persistence layer: `addTimeEntry` and
  `updateTimeEntry` (Supabase mode).
* `supabase/migrations/001_init.sql` — the schema facts about `time_entries`
  (nullable `end_time`, row-level-security policies scoping rows to
  `auth.uid() = user_id`; the migration declares no uniqueness constraint over
  open entries).

Modelling conventions:

* Instants are epoch milliseconds as `Int` (JavaScript `Date.getTime()`).
* The `YYYY-MM-DD` strings produced by `getDateInTimezone` are modelled by the
  `(year, month, day)` triple of the same civil date; the zero-padded string
  rendering is injective in this triple, so string equality coincides with
  triple equality.
* JavaScript `Date` mutators (`setHours`, `setDate`) operate in the machine's
  local zone.  The machine zone is modelled as a fixed offset `mOff` in
  milliseconds (daylight-saving transitions of the machine zone are outside the
  model); under a fixed offset, `setHours` keeps the local calendar day and
  replaces the local time of day, and `setDate(getDate()+1)` adds one day.
* Empty-string sentinels of the component state (`startTime`, `currentEntryId`)
  are modelled as `Option` with `none` for `""`.
* `generateId` (whose source file `lib/utils.ts` is not in the tree) is
  modelled as an injected identifier argument `gid`; freshness is a hypothesis
  where a claim needs it.
* Asynchronous persistence calls are modelled as an emitted list of `StoreOp`
  values, in the order the code issues them.
-/

namespace DailyReport

/-- Milliseconds per civil day. -/
def msPerDay : Int := 86400000

/-- The fixed enumerated timezone list `TIMEZONES` of `task-timer.tsx`.
The component supports exactly these nine keys. -/
inductive Timezone where
  | asiaTokyo
  | americaNewYork
  | americaLosAngeles
  | europeLondon
  | asiaShanghai
  | asiaKolkata
  | europeParis
  | australiaSydney
  | pacificAuckland
deriving DecidableEq, Repr

/-- The `offset` field of each `TIMEZONES` entry, converted to milliseconds
exactly as the code does (`offset * 60 * 60 * 1000`; the one fractional
offset, India's 5.5 hours, is exact in floating point, so the products are the
integers below). -/
def tzOffsetMs : Timezone → Int
  | .asiaTokyo => 9 * 3600000
  | .americaNewYork => -5 * 3600000
  | .americaLosAngeles => -8 * 3600000
  | .europeLondon => 0
  | .asiaShanghai => 8 * 3600000
  | .asiaKolkata => 19800000
  | .europeParis => 1 * 3600000
  | .australiaSydney => 10 * 3600000
  | .pacificAuckland => 12 * 3600000

/-- Civil (proleptic Gregorian) date from a day number counted from
1970-01-01, as computed by the JavaScript `Date.getUTCFullYear`,
`getUTCMonth`+1 and `getUTCDate` accessors.  Standard civil-from-days
algorithm; all divisions below are on non-negative operands except the era,
which floors. -/
def civilFromDays (z0 : Int) : Int × Int × Int :=
  let z := z0 + 719468
  let era := z.fdiv 146097
  let doe := z - era * 146097
  let yoe := (doe - doe / 1460 + doe / 36524 - doe / 146096) / 365
  let y := yoe + era * 400
  let doy := doe - (365 * yoe + yoe / 4 - yoe / 100)
  let mp := (5 * doy + 2) / 153
  let d := doy - (153 * mp + 2) / 5 + 1
  let m := if mp < 10 then mp + 3 else mp - 9
  (y + (if m ≤ 2 then 1 else 0), m, d)

/-- Day number (counted from 1970-01-01) of instant `t` in a zone of fixed
offset `off` milliseconds: floor of `(t + off) / msPerDay`. -/
def localDay (off t : Int) : Int := (t + off).fdiv msPerDay

/-- Embedding of `getDateInTimezone` in `task-timer.tsx`: shift the epoch
timestamp by the zone offset and read the UTC calendar fields, i.e. the civil
date of the zone-local day number. -/
def getDateInTimezone (t : Int) (tz : Timezone) : Int × Int × Int :=
  civilFromDays (localDay (tzOffsetMs tz) t)

/-- JavaScript `Date.setHours(h, mi, s, ms)` on a machine whose local zone is
the fixed offset `mOff`: keep the machine-local calendar day of `t`, replace
the local time of day. -/
def setHoursLocal (mOff t h mi s ms : Int) : Int :=
  localDay mOff t * msPerDay + (((h * 60 + mi) * 60 + s) * 1000 + ms) - mOff

/-- JavaScript `Date.setDate(getDate() + n)` under a fixed machine offset:
adding `n` civil days moves the instant by `n` whole days. -/
def addDaysLocal (n t : Int) : Int := t + n * msPerDay

/-- The `TimeEntry` record of `lib/types` as used by the timer component:
`startTime`/`endTime` ISO strings are modelled by their epoch-millisecond
instants, the `date` string by its civil-date triple. -/
structure TimeEntry where
  id : String
  taskId : String
  startTime : Int
  endTime : Option Int
  comment : String
  date : Int × Int × Int
deriving DecidableEq, Repr

/-- The mutable state of the `TaskTimer` component (the fields the lifecycle
logic reads and writes; presentational state such as the comment dialog's
visibility is not modelled). -/
structure TimerState where
  selectedTaskId : String
  isRunning : Bool
  startTime : Option Int
  elapsedSeconds : Int
  comment : String
  pendingComment : String
  currentEntryId : Option String
  timezone : Timezone
  isSaving : Bool
deriving DecidableEq, Repr

/-- A persistence call issued by the component, in issue order:
`update` is `onUpdateEntry(id, { endTime, comment })`, `insert` is
`onAddEntry(entry)`, and `sheetWrite` is `writeToSpreadsheet(id)` (the export
notifier). -/
inductive StoreOp where
  | update (id : String) (endTime : Option Int) (comment : String)
  | insert (entry : TimeEntry)
  | sheetWrite (id : String)
deriving DecidableEq, Repr

/-- JavaScript `a || b` on strings: `b` when `a` is the empty string. -/
def orElseStr (a b : String) : String := if a = "" then b else a

/-- Embedding of `handleMidnightCrossover` in `task-timer.tsx`.  Arguments:
`mOff` the machine-local zone offset, `gid` the identifier produced by
`generateId()`.  Mirrors the code: guard on running state, close the current
entry at machine-local 23:59:59.999 of its start day, notify the spreadsheet,
then add a fresh entry starting at machine-local 00:00:00.000 of the next day
whose `date` field is computed by `getDateInTimezone` in the selected zone. -/
def handleMidnightCrossover (mOff : Int) (gid : String) (st : TimerState) :
    TimerState × List StoreOp :=
  match st.startTime, st.currentEntryId with
  | some start, some eid =>
    if st.isRunning ∧ st.selectedTaskId ≠ "" then
      let previousDayEnd := setHoursLocal mOff start 23 59 59 999
      let newDayStart := addDaysLocal 1 (setHoursLocal mOff previousDayEnd 0 0 0 0)
      let newEntry : TimeEntry :=
        { id := gid
          taskId := st.selectedTaskId
          startTime := newDayStart
          endTime := none
          comment := orElseStr st.comment st.pendingComment
          date := getDateInTimezone newDayStart st.timezone }
      ({ st with currentEntryId := some gid
                 startTime := some newDayStart
                 elapsedSeconds := 0 },
       [StoreOp.update eid (some previousDayEnd) (orElseStr st.comment st.pendingComment),
        StoreOp.sheetWrite eid,
        StoreOp.insert newEntry])
    else (st, [])
  | _, _ => (st, [])

/-- Embedding of the one-second interval effect in `task-timer.tsx`: the
interval only exists while `isRunning && startTime`; each tick compares the
selected-zone dates of the start instant and of now, invoking
`handleMidnightCrossover` when they differ and otherwise recomputing the
elapsed seconds as `Math.max(0, Math.floor((now - start) / 1000))`. -/
def tick (mOff : Int) (gid : String) (now : Int) (st : TimerState) :
    TimerState × List StoreOp :=
  match st.startTime with
  | some start =>
    if st.isRunning then
      if getDateInTimezone start st.timezone ≠ getDateInTimezone now st.timezone then
        handleMidnightCrossover mOff gid st
      else
        ({ st with elapsedSeconds := max 0 ((now - start).fdiv 1000) }, [])
    else (st, [])
  | none => (st, [])

/-- Embedding of the mount-time restore effect in `task-timer.tsx`: find the
first entry without an end time; if its selected-zone start date differs from
today's, restore the running state with elapsed 0 and leave the crossover to
the tick effect (the code issues no persistence call here); otherwise restore
the running state with elapsed recomputed from the start instant. -/
def restore (now : Int) (entries : List TimeEntry) (st : TimerState) :
    TimerState × List StoreOp :=
  match entries.find? (fun e => e.endTime.isNone) with
  | none => (st, [])
  | some activeEntry =>
    let base := { st with
      currentEntryId := some activeEntry.id
      selectedTaskId := activeEntry.taskId
      startTime := some activeEntry.startTime
      isRunning := true
      comment := activeEntry.comment
      pendingComment := activeEntry.comment }
    if getDateInTimezone activeEntry.startTime st.timezone ≠
        getDateInTimezone now st.timezone then
      ({ base with elapsedSeconds := 0 }, [])
    else
      ({ base with elapsedSeconds := max 0 ((now - activeEntry.startTime).fdiv 1000) }, [])

/-- Embedding of the synchronous part of `handleSaveEntry`: a click while a
save is in flight (`isSaving`) is ignored; otherwise the flag is set and one
`update` with the end instant and the pending comment is issued (the save now
being in flight).  When no current entry id exists the code logs, clears the
flag and returns without touching the store. -/
def saveClick (now : Int) (st : TimerState) : TimerState × List StoreOp :=
  if st.isSaving then (st, [])
  else
    match st.currentEntryId with
    | some eid =>
      ({ st with isSaving := true }, [StoreOp.update eid (some now) st.pendingComment])
    | none => ({ st with isSaving := false }, [])

/-- Embedding of the completion of the in-flight save in `handleSaveEntry`.
On success the spreadsheet is notified and the state is reset to idle; on
failure only the `isSaving` flag is cleared — the run state, start time,
current entry id and elapsed seconds are untouched, so the user can retry. -/
def saveComplete (success : Bool) (st : TimerState) : TimerState × List StoreOp :=
  match st.currentEntryId with
  | some eid =>
    if success then
      ({ st with isRunning := false
                 startTime := none
                 elapsedSeconds := 0
                 comment := st.pendingComment
                 currentEntryId := none
                 isSaving := false },
       [StoreOp.sheetWrite eid])
    else ({ st with isSaving := false }, [])
  | none => ({ st with isSaving := false }, [])

/-- A sequence of stop/save clicks processed in order, with the emitted store
calls concatenated in order. -/
def saveClicks (times : List Int) (st : TimerState) : TimerState × List StoreOp :=
  match times with
  | [] => (st, [])
  | t :: ts =>
    let r1 := saveClick t st
    let r2 := saveClicks ts r1.1
    (r2.1, r1.2 ++ r2.2)

/-- A row of the `time_entries` table (columns used by the lifecycle:
`id`, `user_id`, `task_id`, `start_time`, `end_time`, `comment`, `date`). -/
structure DbRow where
  id : String
  userId : String
  taskId : String
  startTime : Int
  endTime : Option Int
  comment : String
  date : Int × Int × Int
deriving DecidableEq, Repr

/-- Outcome of `addTimeEntry` in `lib/linear/projects.ts` (Supabase mode). -/
inductive InsertOutcome where
  | ok (newStore : List DbRow) (saved : DbRow)
  | authErr
  | denied
deriving DecidableEq, Repr

/-- The row `addTimeEntry` builds: the entry's fields plus
`user_id := currentUser.id`; `rid` is the database-assigned row identifier. -/
def rowOfEntry (uid rid : String) (e : TimeEntry) : DbRow :=
  { id := rid
    userId := uid
    taskId := e.taskId
    startTime := e.startTime
    endTime := e.endTime
    comment := e.comment
    date := e.date }

/-- Embedding of `addTimeEntry` (Supabase mode) against the schema of
`001_init.sql`: fail when unauthenticated; the row-level-security insert
policy admits a row exactly when `auth.uid() = user_id` (the admin policy only
widens this); on success the row is added.  The migration declares no
constraint over entries with null `end_time` — `end_time` only became nullable
in this migration (`ALTER TABLE time_entries ALTER COLUMN end_time DROP NOT
NULL`), which added no accompanying uniqueness constraint or conflict check,
and `addTimeEntry` itself performs the insert unconditionally. -/
def dbInsert (authUid : Option String) (rid : String) (store : List DbRow)
    (e : TimeEntry) : InsertOutcome :=
  match authUid with
  | none => .authErr
  | some uid =>
    let row := rowOfEntry uid rid e
    if row.userId = uid then .ok (row :: store) row else .denied

/-- The field update `updateTimeEntry` applies for the calls made by the timer
(`{ endTime, comment }`): only those two columns are written. -/
def updateRow (endT : Option Int) (c : String) (r : DbRow) : DbRow :=
  { r with endTime := endT, comment := c }

/-- Embedding of `updateTimeEntry` (Supabase mode) for the `{ endTime,
comment }` updates the timer issues: the update targets rows matching the id,
restricted by the row-level-security update policy to the caller's own rows. -/
def dbUpdate (authUid : Option String) (id : String) (endT : Option Int)
    (c : String) (store : List DbRow) : List DbRow :=
  match authUid with
  | none => store
  | some uid =>
    store.map (fun r => if r.id = id ∧ r.userId = uid then updateRow endT c r else r)

/-- The open entries of a user: rows owned by the user with null `end_time`. -/
def openRows (uid : String) (store : List DbRow) : List DbRow :=
  store.filter (fun r => r.userId == uid && r.endTime.isNone)

/-- The last millisecond of the calendar date of `t` in the user-selected
zone: the spec's description of the closed half's end instant ("23:59:59.999
of the start date, in the active zone"), written against the selected zone's
offset.  Used to compare the implementation's machine-local computation with
the specified selected-zone one. -/
def specDayEndInSelectedZone (tz : Timezone) (t : Int) : Int :=
  localDay (tzOffsetMs tz) t * msPerDay + (msPerDay - 1) - tzOffsetMs tz

/-! Arithmetic facts about local days and the split boundary. -/

/-- Floor division in `localDay` agrees with Euclidean division by the
positive constant `msPerDay`. -/
theorem localDay_eq_ediv (off t : Int) : localDay off t = (t + off) / msPerDay := by
  unfold localDay msPerDay
  exact Int.fdiv_eq_ediv _ (by norm_num)

/-- Setting 23:59:59.999 places the instant at the last millisecond of its
machine-local day. -/
theorem setHours_end_of_day (mOff t : Int) :
    setHoursLocal mOff t 23 59 59 999 = localDay mOff t * msPerDay + (msPerDay - 1) - mOff := by
  unfold setHoursLocal msPerDay
  norm_num

/-- The new-day start computed by `handleMidnightCrossover` (00:00:00.000 of
the next machine-local day) is exactly one millisecond after the computed end
of the previous day. -/
theorem crossover_boundary (mOff t : Int) :
    addDaysLocal 1 (setHoursLocal mOff (setHoursLocal mOff t 23 59 59 999) 0 0 0 0)
      = setHoursLocal mOff t 23 59 59 999 + 1 := by
  simp only [addDaysLocal, setHoursLocal, localDay_eq_ediv, msPerDay]
  omega

/-- The computed end of the previous day lies on the same machine-local day as
the start instant. -/
theorem localDay_prevEnd (mOff t : Int) :
    localDay mOff (setHoursLocal mOff t 23 59 59 999) = localDay mOff t := by
  simp only [setHoursLocal, localDay_eq_ediv, msPerDay]
  omega

/-- One millisecond past the computed end of the previous day lies on the next
machine-local day. -/
theorem localDay_newStart (mOff t : Int) :
    localDay mOff (setHoursLocal mOff t 23 59 59 999 + 1) = localDay mOff t + 1 := by
  simp only [setHoursLocal, localDay_eq_ediv, msPerDay]
  omega

/-- Every instant strictly after the computed day end lies on a strictly later
local day: the day end is maximal in the start instant's day. -/
theorem localDay_lt_of_prevEnd_lt (mOff t u : Int)
    (h : setHoursLocal mOff t 23 59 59 999 < u) : localDay mOff t < localDay mOff u := by
  simp only [setHoursLocal, localDay_eq_ediv, msPerDay] at h ⊢
  omega

/-- Every instant strictly before the computed new-day start lies on an
earlier local day than the new-day start: the new start is minimal in the
following day. -/
theorem localDay_lt_of_lt_newStart (mOff t u : Int)
    (h : u < setHoursLocal mOff t 23 59 59 999 + 1) :
    localDay mOff u < localDay mOff (setHoursLocal mOff t 23 59 59 999 + 1) := by
  simp only [setHoursLocal, localDay_eq_ediv, msPerDay] at h ⊢
  omega

/-- When the machine offset is the selected zone's offset, the computed day
end coincides with the spec's selected-zone day end. -/
theorem setHours_eq_specDayEnd (tz : Timezone) (t : Int) :
    setHoursLocal (tzOffsetMs tz) t 23 59 59 999 = specDayEndInSelectedZone tz t := by
  rw [setHours_end_of_day, specDayEndInSelectedZone]

/-- Characterization of `handleMidnightCrossover` when its guard passes: the
resulting state and the exact sequence of persistence calls it issues. -/
theorem handleMidnightCrossover_eq (mOff : Int) (gid : String) (st : TimerState)
    (start : Int) (eid : String)
    (hrun : st.isRunning = true) (htask : st.selectedTaskId ≠ "")
    (hstart : st.startTime = some start) (hid : st.currentEntryId = some eid) :
    handleMidnightCrossover mOff gid st =
      ({ st with currentEntryId := some gid
                 startTime := some (setHoursLocal mOff start 23 59 59 999 + 1)
                 elapsedSeconds := 0 },
       [StoreOp.update eid (some (setHoursLocal mOff start 23 59 59 999))
          (orElseStr st.comment st.pendingComment),
        StoreOp.sheetWrite eid,
        StoreOp.insert
          { id := gid
            taskId := st.selectedTaskId
            startTime := setHoursLocal mOff start 23 59 59 999 + 1
            endTime := none
            comment := orElseStr st.comment st.pendingComment
            date := getDateInTimezone (setHoursLocal mOff start 23 59 59 999 + 1)
              st.timezone }]) := by
  unfold handleMidnightCrossover
  rw [hstart, hid]
  simp only [crossover_boundary]
  simp [hrun, htask]

/-! Claim C1 -/

/-- An existing open entry (null end instant) of user `u1`. -/
def c1Row1 : DbRow :=
  { id := "e1", userId := "u1", taskId := "t1", startTime := 0,
    endTime := none, comment := "", date := (1970, 1, 1) }

/-- A second open entry submitted for the same user while `c1Row1` is open. -/
def c1Entry2 : TimeEntry :=
  { id := "x2", taskId := "t2", startTime := 3600000,
    endTime := none, comment := "", date := (1970, 1, 1) }

/-- Claim C1: the claim states that inserting a TimeEntry while the user
already has an open entry fails with a Conflict error enforced by the data
store and creates no row.  In the code there is no such enforcement: the
migration adds no uniqueness constraint over open entries (it merely makes
`end_time` nullable) and `addTimeEntry` inserts unconditionally, so with one
open entry already present the insert of a second open entry for the same
user succeeds and leaves the user with two open entries. -/
theorem c1_second_open_insert_succeeds :
    (openRows "u1" [c1Row1]).length = 1 ∧
    dbInsert (some "u1") "e2" [c1Row1] c1Entry2 =
      InsertOutcome.ok [rowOfEntry "u1" "e2" c1Entry2, c1Row1]
        (rowOfEntry "u1" "e2" c1Entry2) ∧
    (openRows "u1" [rowOfEntry "u1" "e2" c1Entry2, c1Row1]).length = 2 :=
  ⟨rfl, rfl, rfl⟩

/-! Claim C5 -/

/-- A running controller state about to cross midnight: machine and selected
zone are both Asia/Tokyo, the current entry `e1` started at epoch 0. -/
def c5State : TimerState :=
  { selectedTaskId := "t1", isRunning := true, startTime := some 0,
    elapsedSeconds := 0, comment := "c", pendingComment := "",
    currentEntryId := some "e1", timezone := .asiaTokyo, isSaving := false }

/-- The store holding the single open entry the controller is tracking. -/
def c5Store : List DbRow :=
  [{ id := "e1", userId := "u1", taskId := "t1", startTime := 0,
     endTime := none, comment := "c", date := (1970, 1, 1) }]

/-- Claim C5: the claim states that the midnight split persists its two
effects as a single atomic operation.  In the code the split issues two
independent persistence calls — an `update` closing the old entry and a
separate `insert` creating the new one (with a spreadsheet call between
them); after the first call alone has been applied, the user's store holds
the old entry closed and no open entry, the partial-failure state the claim
says is unreachable. -/
theorem c5_split_issues_two_independent_calls :
    (handleMidnightCrossover 32400000 "g1" c5State).2 =
      [StoreOp.update "e1" (some 53999999) "c",
       StoreOp.sheetWrite "e1",
       StoreOp.insert
         { id := "g1", taskId := "t1", startTime := 54000000,
           endTime := none, comment := "c", date := (1970, 1, 2) }] ∧
    (openRows "u1" (dbUpdate (some "u1") "e1" (some 53999999) "c" c5Store)).length = 0 :=
  ⟨rfl, rfl⟩

/-! Claim C4 -/

/-- A running controller whose machine-local zone (UTC, offset 0) differs
from the selected zone (Asia/Tokyo): the current entry started at
2024-01-01T14:00:00Z, which is 23:00 of Jan 1 in Tokyo. -/
def c4State : TimerState :=
  { selectedTaskId := "t1", isRunning := true, startTime := some 1704117600000,
    elapsedSeconds := 0, comment := "c", pendingComment := "",
    currentEntryId := some "e1", timezone := .asiaTokyo, isSaving := false }

/-- Claim C4: the claim states that when the selected zone's day boundary
differs from machine-local midnight the split uses the selected zone offset
consistently for both halves.  In the code the split instants come from
`Date.setHours`, which works in the machine zone: at the first tick after
Tokyo midnight (2024-01-02T00:00 Tokyo = 1704121200000) the crossover fires,
but it closes the entry at 1704153599999 (23:59:59.999 UTC of Jan 1) and
restarts at 1704153600000 (00:00 UTC of Jan 2), not at the selected zone's
boundary 1704121199999 / 1704121200000 (14:59:59.999Z / 15:00:00.000Z). -/
theorem c4_split_uses_machine_zone_not_selected_zone :
    getDateInTimezone 1704117600000 Timezone.asiaTokyo ≠
      getDateInTimezone 1704121200000 Timezone.asiaTokyo ∧
    (tick 0 "g1" 1704121200000 c4State).2 =
      [StoreOp.update "e1" (some 1704153599999) "c",
       StoreOp.sheetWrite "e1",
       StoreOp.insert
         { id := "g1", taskId := "t1", startTime := 1704153600000,
           endTime := none, comment := "c", date := (2024, 1, 2) }] ∧
    specDayEndInSelectedZone Timezone.asiaTokyo 1704117600000 = 1704121199999 ∧
    (1704153599999 : Int) ≠ 1704121199999 ∧
    specDayEndInSelectedZone Timezone.asiaTokyo 1704117600000 + 1 = 1704121200000 ∧
    (1704153600000 : Int) ≠ 1704121200000 :=
  ⟨by decide, rfl, rfl, by decide, rfl, by decide⟩

/-! Claim C3 -/

/-- Claim C3: the midnight split is duration-continuous.  Whatever the machine
offset and zone, the closed half ends exactly one millisecond before the new
half starts, so at the instant of the split the closed duration plus the new
entry's elapsed time equals now minus the original start up to exactly one
millisecond — well within the 1-second rounding the spec allows. -/
theorem c3_duration_continuity (mOff : Int) (gid : String) (st : TimerState)
    (start now : Int) (eid : String)
    (hrun : st.isRunning = true) (htask : st.selectedTaskId ≠ "")
    (hstart : st.startTime = some start) (hid : st.currentEntryId = some eid) :
    ∃ endMs newEntry,
      (handleMidnightCrossover mOff gid st).2 =
        [StoreOp.update eid (some endMs) (orElseStr st.comment st.pendingComment),
         StoreOp.sheetWrite eid, StoreOp.insert newEntry] ∧
      (endMs - start) + (now - newEntry.startTime) = (now - start) - 1 ∧
      (now - start) - ((endMs - start) + (now - newEntry.startTime)) < 1000 := by
  have h := handleMidnightCrossover_eq mOff gid st start eid hrun htask hstart hid
  refine ⟨setHoursLocal mOff start 23 59 59 999,
    { id := gid
      taskId := st.selectedTaskId
      startTime := setHoursLocal mOff start 23 59 59 999 + 1
      endTime := none
      comment := orElseStr st.comment st.pendingComment
      date := getDateInTimezone (setHoursLocal mOff start 23 59 59 999 + 1)
        st.timezone }, ?_, ?_, ?_⟩
  · rw [h]
  · show (setHoursLocal mOff start 23 59 59 999 - start) +
        (now - (setHoursLocal mOff start 23 59 59 999 + 1)) = (now - start) - 1
    ring
  · show (now - start) - ((setHoursLocal mOff start 23 59 59 999 - start) +
        (now - (setHoursLocal mOff start 23 59 59 999 + 1))) < 1000
    have harr : ∀ a : Int, (now - start) - ((a - start) + (now - (a + 1))) = 1 := by
      intro a; ring
    rw [harr]
    norm_num

/-- A running controller with machine and selected zone both Asia/Tokyo,
tracking entry `e1` started at epoch 0; used to instantiate the universally
quantified lifecycle theorems. -/
def sampleRunState : TimerState :=
  { selectedTaskId := "t1", isRunning := true, startTime := some 0,
    elapsedSeconds := 0, comment := "c", pendingComment := "",
    currentEntryId := some "e1", timezone := .asiaTokyo, isSaving := false }

/-- Witness for C3 at a concrete state. -/
theorem c3_duration_continuity_witness :
    ∃ endMs newEntry,
      (handleMidnightCrossover 32400000 "g1" sampleRunState).2 =
        [StoreOp.update "e1" (some endMs)
           (orElseStr sampleRunState.comment sampleRunState.pendingComment),
         StoreOp.sheetWrite "e1", StoreOp.insert newEntry] ∧
      (endMs - 0) + (1000000 - newEntry.startTime) = (1000000 - 0) - 1 ∧
      (1000000 - 0) - ((endMs - 0) + (1000000 - newEntry.startTime)) < 1000 :=
  c3_duration_continuity 32400000 "g1" sampleRunState 0 1000000 "e1" rfl
    (by decide) rfl rfl

/-! Claim C6 -/

/-- While a save is in flight (`isSaving = true`), any further stop/save
clicks are ignored: the state does not change and no store call is issued. -/
theorem saveClicks_inflight (ts : List Int) (st : TimerState)
    (h : st.isSaving = true) : saveClicks ts st = (st, []) := by
  induction ts with
  | nil => rfl
  | cons t ts ih =>
    have h1 : saveClick t st = (st, []) := by
      simp [saveClick, h]
    simp [saveClicks, h1, ih]

/-- Claim C6: for every sequence of stop/save clicks whose later members
arrive while the save triggered by the first is still in flight, exactly one
`update` carrying the end instant reaches the store — the duplicates are all
ignored by the `isSaving` guard. -/
theorem c6_double_click_single_update (st : TimerState) (eid : String)
    (t : Int) (ts : List Int)
    (hns : st.isSaving = false) (hid : st.currentEntryId = some eid) :
    (saveClicks (t :: ts) st).2 = [StoreOp.update eid (some t) st.pendingComment] := by
  have h1 : saveClick t st =
      ({ st with isSaving := true }, [StoreOp.update eid (some t) st.pendingComment]) := by
    simp [saveClick, hns, hid]
  have h2 : saveClicks ts { st with isSaving := true } =
      ({ st with isSaving := true }, []) :=
    saveClicks_inflight ts _ rfl
  simp [saveClicks, h1, h2]

/-- A running controller about to be stopped, with a pending comment. -/
def c6State : TimerState :=
  { selectedTaskId := "t1", isRunning := true, startTime := some 0,
    elapsedSeconds := 7, comment := "", pendingComment := "done",
    currentEntryId := some "e1", timezone := .asiaTokyo, isSaving := false }

/-- Witness for C6: a triple click within the save round-trip yields exactly
one update call. -/
theorem c6_double_click_single_update_witness :
    (saveClicks [100, 150, 200] c6State).2 = [StoreOp.update "e1" (some 100) "done"] :=
  c6_double_click_single_update c6State "e1" 100 [150, 200] rfl rfl

/-! Claim C7 -/

/-- Claim C7: if persisting the close fails, the controller state is not
transitioned to idle — it stays running with the same current entry id, start
time and elapsed seconds, only the saving flag is cleared (so the user can
retry), and no further store call is issued. -/
theorem c7_close_failure_keeps_running (st : TimerState) (eid : String)
    (hid : st.currentEntryId = some eid) (hrun : st.isRunning = true) :
    saveComplete false st = ({ st with isSaving := false }, []) ∧
    (saveComplete false st).1.isRunning = true ∧
    (saveComplete false st).1.currentEntryId = some eid ∧
    (saveComplete false st).1.startTime = st.startTime ∧
    (saveComplete false st).1.elapsedSeconds = st.elapsedSeconds := by
  have h : saveComplete false st = ({ st with isSaving := false }, []) := by
    simp [saveComplete, hid]
  refine ⟨h, ?_, ?_, ?_, ?_⟩ <;> rw [h] <;> simp [hrun, hid]

/-- A running controller whose close request is in flight. -/
def c7State : TimerState :=
  { selectedTaskId := "t1", isRunning := true, startTime := some 0,
    elapsedSeconds := 42, comment := "", pendingComment := "p",
    currentEntryId := some "e1", timezone := .asiaTokyo, isSaving := true }

/-- Witness for C7 at a concrete state. -/
theorem c7_close_failure_keeps_running_witness :
    saveComplete false c7State = ({ c7State with isSaving := false }, []) ∧
    (saveComplete false c7State).1.isRunning = true ∧
    (saveComplete false c7State).1.currentEntryId = some "e1" ∧
    (saveComplete false c7State).1.startTime = c7State.startTime ∧
    (saveComplete false c7State).1.elapsedSeconds = c7State.elapsedSeconds :=
  c7_close_failure_keeps_running c7State "e1" rfl rfl

/-! Claim C9 -/

/-- Claim C9: while running, a one-second tick hands control to the midnight
splitter exactly when the selected-zone calendar date of now differs from the
selected-zone calendar date of the start instant; on a tick within the same
date no store call is issued and the elapsed seconds are recomputed from the
start instant (floored to seconds and clamped at zero, as the code does). -/
theorem c9_tick_splits_iff_date_differs (mOff : Int) (gid : String) (now : Int)
    (st : TimerState) (start : Int) (eid : String)
    (hrun : st.isRunning = true) (htask : st.selectedTaskId ≠ "")
    (hstart : st.startTime = some start) (hid : st.currentEntryId = some eid) :
    (getDateInTimezone start st.timezone = getDateInTimezone now st.timezone →
      tick mOff gid now st =
        ({ st with elapsedSeconds := max 0 ((now - start).fdiv 1000) }, [])) ∧
    (getDateInTimezone start st.timezone ≠ getDateInTimezone now st.timezone →
      tick mOff gid now st = handleMidnightCrossover mOff gid st ∧
      (tick mOff gid now st).2 ≠ []) := by
  constructor
  · intro hsame
    unfold tick
    rw [hstart]
    simp [hrun, hsame]
  · intro hdiff
    have ht : tick mOff gid now st = handleMidnightCrossover mOff gid st := by
      unfold tick
      rw [hstart]
      simp [hrun, hdiff]
    refine ⟨ht, ?_⟩
    rw [ht, handleMidnightCrossover_eq mOff gid st start eid hrun htask hstart hid]
    simp

/-- Witness for C9: at a concrete running state, a same-day tick only updates
the elapsed seconds, and a tick on the next Tokyo day issues store calls. -/
theorem c9_tick_splits_iff_date_differs_witness :
    tick 32400000 "g" 5000 sampleRunState =
      ({ sampleRunState with elapsedSeconds := max 0 (((5000 : Int) - 0).fdiv 1000) }, []) ∧
    (tick 32400000 "g" 86400000 sampleRunState).2 ≠ [] :=
  ⟨(c9_tick_splits_iff_date_differs 32400000 "g" 5000 sampleRunState 0 "e1" rfl
      (by decide) rfl rfl).1 (by decide),
   ((c9_tick_splits_iff_date_differs 32400000 "g" 86400000 sampleRunState 0 "e1" rfl
      (by decide) rfl rfl).2 (by decide)).2⟩

/-! Claim C10 -/

/-- The elapsed-seconds formula of the code clamps a future start to zero. -/
theorem elapsed_clamp_zero (a b : Int) (h : a < b) : max 0 ((a - b).fdiv 1000) = 0 := by
  rw [Int.fdiv_eq_ediv _ (by norm_num)]
  have hle : (a - b) / 1000 ≤ 0 := by omega
  exact max_eq_left hle

/-- Claim C10: the displayed elapsed seconds are never negative — on a
same-day tick and on restore of a persisted open entry the value is the
clamped formula, which is non-negative and equals zero whenever the start
instant lies in the future of now. -/
theorem c10_elapsed_never_negative (mOff : Int) (gid : String) (now now2 : Int)
    (st st2 : TimerState) (start : Int) (e : TimeEntry) (entries : List TimeEntry)
    (hrun : st.isRunning = true) (hstart : st.startTime = some start)
    (hsame : getDateInTimezone start st.timezone = getDateInTimezone now st.timezone)
    (hfind : entries.find? (fun x => x.endTime.isNone) = some e) :
    (0 ≤ (tick mOff gid now st).1.elapsedSeconds ∧
      (now < start → (tick mOff gid now st).1.elapsedSeconds = 0)) ∧
    (0 ≤ (restore now2 entries st2).1.elapsedSeconds ∧
      (now2 < e.startTime → (restore now2 entries st2).1.elapsedSeconds = 0)) := by
  constructor
  · have ht : tick mOff gid now st =
        ({ st with elapsedSeconds := max 0 ((now - start).fdiv 1000) }, []) := by
      unfold tick
      rw [hstart]
      simp [hrun, hsame]
    rw [ht]
    exact ⟨le_max_left _ _, fun hlt => elapsed_clamp_zero now start hlt⟩
  · unfold restore
    rw [hfind]
    by_cases hc : getDateInTimezone e.startTime st2.timezone =
        getDateInTimezone now2 st2.timezone
    · simp only [hc, ne_eq, not_true_eq_false, if_false]
      exact ⟨le_max_left _ _, fun hlt => elapsed_clamp_zero now2 e.startTime hlt⟩
    · simp [hc]

/-- An idle controller state before the mount-time restore effect runs. -/
def c10Idle : TimerState :=
  { selectedTaskId := "", isRunning := false, startTime := none,
    elapsedSeconds := 0, comment := "", pendingComment := "",
    currentEntryId := none, timezone := .asiaTokyo, isSaving := false }

/-- An open entry whose start instant lies in the future (clock skew). -/
def c10Entry : TimeEntry :=
  { id := "e1", taskId := "t1", startTime := 7000, endTime := none,
    comment := "", date := (1970, 1, 1) }

/-- Witness for C10: with a start instant 7000 and now 5000 (start in the
future), both the tick and the restore paths display zero. -/
theorem c10_elapsed_never_negative_witness :
    (0 ≤ (tick 32400000 "g" 5000 { sampleRunState with startTime := some 7000 }).1.elapsedSeconds ∧
      ((5000 : Int) < 7000 →
        (tick 32400000 "g" 5000 { sampleRunState with startTime := some 7000 }).1.elapsedSeconds = 0)) ∧
    (0 ≤ (restore 5000 [c10Entry] c10Idle).1.elapsedSeconds ∧
      ((5000 : Int) < c10Entry.startTime →
        (restore 5000 [c10Entry] c10Idle).1.elapsedSeconds = 0)) :=
  c10_elapsed_never_negative 32400000 "g" 5000 5000
    { sampleRunState with startTime := some 7000 } c10Idle 7000 c10Entry [c10Entry]
    rfl rfl (by decide) rfl

/-! Claim C2 -/

/-- Claim C2: for an open entry crossing the day boundary (machine zone
agreeing with the selected zone, the configuration in which the code's
machine-local `setHours` realizes the selected-zone boundary; the mismatched
configuration is Claim C4), the split closes the entry at the last
millisecond of its start date — writing back the entry's own comment, so the
closed row equals the original except for the end instant, the date column
untouched — and creates a fresh-identified entry starting at the first
millisecond of the following date, with null end, the same task and comment,
and date attribute equal to that following date. -/
theorem c2_split_shape (mOff : Int) (gid : String) (st : TimerState) (e : TimeEntry)
    (hrun : st.isRunning = true) (htask : st.selectedTaskId = e.taskId)
    (htask0 : e.taskId ≠ "")
    (hstart : st.startTime = some e.startTime)
    (hid : st.currentEntryId = some e.id)
    (hcomm : orElseStr st.comment st.pendingComment = e.comment)
    (hzone : mOff = tzOffsetMs st.timezone)
    (hfresh : gid ≠ e.id) :
    ∃ endMs newEntry,
      (handleMidnightCrossover mOff gid st).2 =
        [StoreOp.update e.id (some endMs) e.comment,
         StoreOp.sheetWrite e.id, StoreOp.insert newEntry] ∧
      endMs = specDayEndInSelectedZone st.timezone e.startTime ∧
      localDay (tzOffsetMs st.timezone) endMs
        = localDay (tzOffsetMs st.timezone) e.startTime ∧
      (∀ u, endMs < u →
        localDay (tzOffsetMs st.timezone) e.startTime
          < localDay (tzOffsetMs st.timezone) u) ∧
      (∀ r : DbRow, r.comment = e.comment →
        updateRow (some endMs) e.comment r = { r with endTime := some endMs }) ∧
      newEntry.id = gid ∧ newEntry.id ≠ e.id ∧
      newEntry.taskId = e.taskId ∧ newEntry.comment = e.comment ∧
      newEntry.endTime = none ∧
      newEntry.startTime = endMs + 1 ∧
      localDay (tzOffsetMs st.timezone) newEntry.startTime
        = localDay (tzOffsetMs st.timezone) e.startTime + 1 ∧
      (∀ u, u < newEntry.startTime →
        localDay (tzOffsetMs st.timezone) u
          < localDay (tzOffsetMs st.timezone) newEntry.startTime) ∧
      newEntry.date = civilFromDays (localDay (tzOffsetMs st.timezone) e.startTime + 1) ∧
      (handleMidnightCrossover mOff gid st).1.currentEntryId = some gid ∧
      (handleMidnightCrossover mOff gid st).1.startTime = some newEntry.startTime := by
  have htask' : st.selectedTaskId ≠ "" := by
    rw [htask]
    exact htask0
  subst hzone
  have h := handleMidnightCrossover_eq (tzOffsetMs st.timezone) gid st e.startTime e.id
    hrun htask' hstart hid
  refine ⟨setHoursLocal (tzOffsetMs st.timezone) e.startTime 23 59 59 999,
    { id := gid
      taskId := st.selectedTaskId
      startTime := setHoursLocal (tzOffsetMs st.timezone) e.startTime 23 59 59 999 + 1
      endTime := none
      comment := orElseStr st.comment st.pendingComment
      date := getDateInTimezone
        (setHoursLocal (tzOffsetMs st.timezone) e.startTime 23 59 59 999 + 1)
        st.timezone }, ?_, ?_, ?_, ?_, ?_, ?_, ?_, ?_, ?_, ?_, ?_, ?_, ?_, ?_, ?_, ?_⟩
  · rw [h, ← hcomm]
  · exact (setHours_eq_specDayEnd st.timezone e.startTime).symm ▸ rfl
  · exact localDay_prevEnd (tzOffsetMs st.timezone) e.startTime
  · intro u hu
    exact localDay_lt_of_prevEnd_lt (tzOffsetMs st.timezone) e.startTime u hu
  · intro r hr
    cases r
    simp only [updateRow]
    simp_all
  · rfl
  · exact hfresh
  · exact htask
  · exact hcomm
  · rfl
  · rfl
  · exact localDay_newStart (tzOffsetMs st.timezone) e.startTime
  · intro u hu
    exact localDay_lt_of_lt_newStart (tzOffsetMs st.timezone) e.startTime u hu
  · show getDateInTimezone
      (setHoursLocal (tzOffsetMs st.timezone) e.startTime 23 59 59 999 + 1) st.timezone
        = civilFromDays (localDay (tzOffsetMs st.timezone) e.startTime + 1)
    unfold getDateInTimezone
    rw [localDay_newStart]
  · rw [h]
  · rw [h]

/-- The open entry tracked by `sampleRunState`. -/
def c2Entry : TimeEntry :=
  { id := "e1", taskId := "t1", startTime := 0, endTime := none,
    comment := "c", date := (1970, 1, 1) }

/-- Witness for C2 at the concrete Tokyo state. -/
theorem c2_split_shape_witness :
    ∃ endMs newEntry,
      (handleMidnightCrossover 32400000 "g9" sampleRunState).2 =
        [StoreOp.update "e1" (some endMs) "c",
         StoreOp.sheetWrite "e1", StoreOp.insert newEntry] ∧
      endMs = specDayEndInSelectedZone Timezone.asiaTokyo 0 ∧
      localDay (tzOffsetMs Timezone.asiaTokyo) endMs
        = localDay (tzOffsetMs Timezone.asiaTokyo) 0 ∧
      (∀ u, endMs < u →
        localDay (tzOffsetMs Timezone.asiaTokyo) 0
          < localDay (tzOffsetMs Timezone.asiaTokyo) u) ∧
      (∀ r : DbRow, r.comment = "c" →
        updateRow (some endMs) "c" r = { r with endTime := some endMs }) ∧
      newEntry.id = "g9" ∧ newEntry.id ≠ "e1" ∧
      newEntry.taskId = "t1" ∧ newEntry.comment = "c" ∧
      newEntry.endTime = none ∧
      newEntry.startTime = endMs + 1 ∧
      localDay (tzOffsetMs Timezone.asiaTokyo) newEntry.startTime
        = localDay (tzOffsetMs Timezone.asiaTokyo) 0 + 1 ∧
      (∀ u, u < newEntry.startTime →
        localDay (tzOffsetMs Timezone.asiaTokyo) u
          < localDay (tzOffsetMs Timezone.asiaTokyo) newEntry.startTime) ∧
      newEntry.date = civilFromDays (localDay (tzOffsetMs Timezone.asiaTokyo) 0 + 1) ∧
      (handleMidnightCrossover 32400000 "g9" sampleRunState).1.currentEntryId = some "g9" ∧
      (handleMidnightCrossover 32400000 "g9" sampleRunState).1.startTime
        = some newEntry.startTime :=
  c2_split_shape 32400000 "g9" sampleRunState c2Entry rfl rfl (by decide) rfl rfl rfl rfl
    (by decide)

/-! Claim C8 -/

/-- A persisted open entry from a previous Tokyo day. -/
def c8Entry : TimeEntry :=
  { id := "e1", taskId := "t1", startTime := 0, endTime := none,
    comment := "c", date := (1970, 1, 1) }

/-- The idle state the component mounts with. -/
def c8Idle : TimerState :=
  { selectedTaskId := "", isRunning := false, startTime := none,
    elapsedSeconds := 0, comment := "", pendingComment := "",
    currentEntryId := none, timezone := .asiaTokyo, isSaving := false }

/-- Counterexample to C8 as stated: restoring a persisted open entry whose
start date differs from today's resumes the running state first — the restore
step issues no persistence call at all, so the Midnight Splitter has not been
invoked before (or upon) resuming; it only runs at the first subsequent
tick. -/
theorem c8_restore_resumes_without_split :
    getDateInTimezone c8Entry.startTime Timezone.asiaTokyo ≠
      getDateInTimezone 86400000 Timezone.asiaTokyo ∧
    (restore 86400000 [c8Entry] c8Idle).2 = [] ∧
    (restore 86400000 [c8Entry] c8Idle).1.isRunning = true ∧
    (restore 86400000 [c8Entry] c8Idle).1.elapsedSeconds = 0 :=
  ⟨by decide, rfl, rfl, rfl⟩

/-- Claim C8 as amended: on (re)initialization only the first open entry is
considered; the controller resumes running with that entry's id, task, start
and comment; when the entry's selected-zone start date differs from today's,
elapsed is reset to 0, the restore itself issues no store call, and the first
subsequent tick (still on a differing date) invokes the Midnight Splitter;
otherwise elapsed is recomputed from the start instant. -/
theorem c8_recovery (mOff : Int) (gid : String) (now now2 : Int)
    (entries : List TimeEntry) (st : TimerState) (e : TimeEntry)
    (hfind : entries.find? (fun x => x.endTime.isNone) = some e) :
    (restore now entries st).2 = [] ∧
    restore now entries st = restore now [e] st ∧
    (restore now entries st).1.currentEntryId = some e.id ∧
    (restore now entries st).1.selectedTaskId = e.taskId ∧
    (restore now entries st).1.startTime = some e.startTime ∧
    (restore now entries st).1.isRunning = true ∧
    (restore now entries st).1.comment = e.comment ∧
    (restore now entries st).1.pendingComment = e.comment ∧
    (getDateInTimezone e.startTime st.timezone = getDateInTimezone now st.timezone →
      (restore now entries st).1.elapsedSeconds = max 0 ((now - e.startTime).fdiv 1000)) ∧
    (getDateInTimezone e.startTime st.timezone ≠ getDateInTimezone now st.timezone →
      (restore now entries st).1.elapsedSeconds = 0 ∧
      (e.taskId ≠ "" →
        getDateInTimezone e.startTime st.timezone ≠ getDateInTimezone now2 st.timezone →
        tick mOff gid now2 (restore now entries st).1 =
          handleMidnightCrossover mOff gid (restore now entries st).1 ∧
        (tick mOff gid now2 (restore now entries st).1).2 ≠ [])) := by
  have hpred := List.find?_some hfind
  have hfind1 : [e].find? (fun x => x.endTime.isNone) = some e := by
    simp only [List.find?]
    simp [hpred]
  by_cases hc : getDateInTimezone e.startTime st.timezone = getDateInTimezone now st.timezone
  · have hres : restore now entries st =
        ({ st with currentEntryId := some e.id
                   selectedTaskId := e.taskId
                   startTime := some e.startTime
                   isRunning := true
                   comment := e.comment
                   pendingComment := e.comment
                   elapsedSeconds := max 0 ((now - e.startTime).fdiv 1000) }, []) := by
      unfold restore
      rw [hfind]
      simp [hc]
    have hres1 : restore now [e] st =
        ({ st with currentEntryId := some e.id
                   selectedTaskId := e.taskId
                   startTime := some e.startTime
                   isRunning := true
                   comment := e.comment
                   pendingComment := e.comment
                   elapsedSeconds := max 0 ((now - e.startTime).fdiv 1000) }, []) := by
      unfold restore
      rw [hfind1]
      simp [hc]
    rw [hres, hres1]
    exact ⟨rfl, rfl, rfl, rfl, rfl, rfl, rfl, rfl, fun _ => rfl, fun hd => absurd hc hd⟩
  · have hres : restore now entries st =
        ({ st with currentEntryId := some e.id
                   selectedTaskId := e.taskId
                   startTime := some e.startTime
                   isRunning := true
                   comment := e.comment
                   pendingComment := e.comment
                   elapsedSeconds := 0 }, []) := by
      unfold restore
      rw [hfind]
      simp [hc]
    have hres1 : restore now [e] st =
        ({ st with currentEntryId := some e.id
                   selectedTaskId := e.taskId
                   startTime := some e.startTime
                   isRunning := true
                   comment := e.comment
                   pendingComment := e.comment
                   elapsedSeconds := 0 }, []) := by
      unfold restore
      rw [hfind1]
      simp [hc]
    rw [hres, hres1]
    refine ⟨rfl, rfl, rfl, rfl, rfl, rfl, rfl, rfl,
      fun hsame => absurd hsame hc, fun _ => ⟨rfl, ?_⟩⟩
    intro htk hd2
    have ht : tick mOff gid now2
        ({ st with currentEntryId := some e.id
                   selectedTaskId := e.taskId
                   startTime := some e.startTime
                   isRunning := true
                   comment := e.comment
                   pendingComment := e.comment
                   elapsedSeconds := 0 } : TimerState) =
        handleMidnightCrossover mOff gid
          { st with currentEntryId := some e.id
                    selectedTaskId := e.taskId
                    startTime := some e.startTime
                    isRunning := true
                    comment := e.comment
                    pendingComment := e.comment
                    elapsedSeconds := 0 } := by
      unfold tick
      simp [hd2]
    refine ⟨ht, ?_⟩
    rw [ht, handleMidnightCrossover_eq mOff gid _ e.startTime e.id rfl htk rfl rfl]
    simp

/-- Witness for C8 (amended): restoring the stale Tokyo entry at
1970-01-02T00:00Z resumes with elapsed 0 and no store call, and a tick on a
later day issues the split's store calls. -/
theorem c8_recovery_witness :
    (restore 86400000 [c8Entry] c8Idle).2 = [] ∧
    (restore 86400000 [c8Entry] c8Idle).1.comment = "c" ∧
    (restore 86400000 [c8Entry] c8Idle).1.pendingComment = "c" ∧
    (restore 86400000 [c8Entry] c8Idle).1.elapsedSeconds = 0 ∧
    (tick 32400000 "g" 172800000 (restore 86400000 [c8Entry] c8Idle).1).2 ≠ [] := by
  have h := c8_recovery 32400000 "g" 86400000 172800000 [c8Entry] c8Idle c8Entry rfl
  have hd := h.2.2.2.2.2.2.2.2.2 (by decide)
  exact ⟨h.1, h.2.2.2.2.2.2.1, h.2.2.2.2.2.2.2.1, hd.1, (hd.2 (by decide) (by decide)).2⟩

end DailyReport
